import Mathlib

/-!
Verification of the pattern-matching and scoring engine of the repository's
two analysis modules, `code_analyzer.py` (class `CodeAnalyzer`) and
`code_analysis_patterns.py` (classes `SecurityPatternChecker` and
`LogicPatternChecker` plus the free function `analyze_code`).

Modelling conventions, applied throughout:
- Python strings are modelled as `String`/`List Char`.
- Python floats are modelled as `ℚ`: every confidence constant of the code
  (0.95, 0.85, 0.75, 0.65, 0.5, 0.3, 1.0) and every product of them is
  exact, and none of the comparisons performed by the code are close enough
  to a rounding boundary for binary floating point to behave differently.
- Python exceptions are modelled with `Except`.
- The standard-library services the code calls (`re`, `ast.parse`,
  `sorted`) are external to the repository; they are modelled by an
  executable engine for the regex fragment the rules actually use, by an
  oracle parameter for `ast.parse`, and by a stable sort.
-/

namespace RepoAnalysis

/-! ## A Python-regex fragment

The rule registry uses only: character literals, character classes
(possibly negated, with ranges), `.`, alternation, concatenation, greedy
and lazy `*`/`+`, and negative lookahead `(?!...)`.  Groups — capturing or
not — only affect sub-group extraction, which the code never performs
(`match.group(0)`, `match.start()` and `re.search` truthiness are the only
observations made), so a group is modelled as plain concatenation.
-/

/-- One item of a regex character class: a single character or a range. -/
inductive ClsItem where
  | single (c : Char)
  | range (lo hi : Char)
deriving DecidableEq, Repr

/-- Does `c` fall under a class item? -/
def ClsItem.matches (c : Char) : ClsItem → Bool
  | .single d => c = d
  | .range lo hi => lo ≤ c && c ≤ hi

/-- Syntax of the regex fragment used by the repository's rules. -/
inductive RE where
  | eps
  | lit (c : Char)
  | cls (neg : Bool) (items : List ClsItem)
  | dot
  | alt (a b : RE)
  | cat (a b : RE)
  | star (lazy : Bool) (r : RE)
  | nlk (r : RE)
deriving Repr

/-- Structural size of a pattern, used only to pick a sufficient fuel. -/
def RE.size : RE → Nat
  | .eps => 1
  | .lit _ => 1
  | .cls _ _ => 1
  | .dot => 1
  | .alt a b => a.size + b.size + 1
  | .cat a b => a.size + b.size + 1
  | .star _ r => r.size + 1
  | .nlk r => r.size + 1

/-- All ways a pattern can match a prefix of `s`, each given by the suffix
that remains, listed in Python's backtracking preference order: first
alternative first, greedy repetition longest-first, lazy repetition
shortest-first, `.` not matching a newline, negative lookahead consuming
nothing.  Repetition is unrolled only while it consumes input; every
repetition body in the repository's rules consumes at least one character,
so this agrees with Python on those patterns.  `fuel` bounds the depth of
the search and is chosen large enough to never be hit (`reFuel`). -/
def matchRem (fuel : Nat) (r : RE) (s : List Char) : List (List Char) :=
  match fuel with
  | 0 => []
  | fuel + 1 =>
    match r with
    | .eps => [s]
    | .lit c =>
      match s with
      | [] => []
      | d :: rest => if d = c then [rest] else []
    | .cls neg items =>
      match s with
      | [] => []
      | d :: rest => if (items.any (ClsItem.matches d)) != neg then [rest] else []
    | .dot =>
      match s with
      | [] => []
      | d :: rest => if d = '\n' then [] else [rest]
    | .alt a b => matchRem fuel a s ++ matchRem fuel b s
    | .cat a b => (matchRem fuel a s).flatMap (fun s2 => matchRem fuel b s2)
    | .star lz r1 =>
      let go := (matchRem fuel r1 s).flatMap (fun s2 =>
        if s2.length < s.length then matchRem fuel (.star lz r1) s2 else [])
      if lz then s :: go else go ++ [s]
    | .nlk r1 => if (matchRem fuel r1 s).isEmpty then [s] else []

/-- Fuel sufficient for `matchRem`: the search depth is bounded by the
pattern size plus one fuel unit per repetition step, and every repetition
step consumes input. -/
def reFuel (r : RE) (s : List Char) : Nat := (r.size + 1) * (s.length + 1) + 1

/-- The match Python's engine produces for `r` at the start of `s` — the
first candidate in preference order — as the number of characters it
consumes, or `none` when `r` does not match at the start of `s`. -/
def reMatchLen (r : RE) (s : List Char) : Option Nat :=
  (matchRem (reFuel r s) r s).head?.map (fun rem => s.length - rem.length)

/-- Helper for `finditer`: scan positions `i, i+1, …` of `s` left to
right, emitting each non-overlapping match as a `(start, length)` pair and
resuming after its end (one past it when it is empty), exactly as
`re.finditer` does. -/
def finditerAux (r : RE) (s : List Char) : Nat → Nat → List (Nat × Nat)
  | 0, _ => []
  | fuel + 1, i =>
    if i ≤ s.length then
      match reMatchLen r (s.drop i) with
      | some len => (i, len) :: finditerAux r s fuel (i + max len 1)
      | none => finditerAux r s fuel (i + 1)
    else []

/-- `re.finditer(r, s)`: all non-overlapping matches, left to right, as
`(start, length)` pairs. -/
def finditer (r : RE) (s : List Char) : List (Nat × Nat) :=
  finditerAux r s (s.length + 2) 0

/-- Truthiness of `re.search(r, s)`: does `r` match anywhere in `s`? -/
def reSearch (r : RE) (s : List Char) : Bool :=
  !(finditer r s).isEmpty

/-! ### Pattern-building helpers -/

/-- A sequence of character literals (an escaped-literal run of a
pattern). -/
def rStr (s : String) : RE :=
  s.data.foldr (fun c r => RE.cat (RE.lit c) r) RE.eps

/-- Right-nested alternation `a|b|…`, preserving Python's left-to-right
preference. -/
def rAlts : List RE → RE
  | [] => RE.eps
  | [r] => r
  | r :: rest => RE.alt r (rAlts rest)

/-- Right-nested concatenation. -/
def rCats : List RE → RE
  | [] => RE.eps
  | [r] => r
  | r :: rest => RE.cat r (rCats rest)

/-- The single-quote character `'`. -/
def squote : Char := Char.ofNat 39

/-- The backquote character. -/
def bquote : Char := Char.ofNat 96

/-- The opening-brace character. -/
def lbrace : Char := Char.ofNat 123

/-- The closing-brace character. -/
def rbrace : Char := Char.ofNat 125

/-- The character class `["\']`. -/
def quoteCls : RE := .cls false [.single '"', .single squote]

/-- The character class `[^"\']`. -/
def notQuoteCls : RE := .cls true [.single '"', .single squote]

/-- The character class `[\'"`]` (quote, double quote or backquote). -/
def qbCls : RE := .cls false [.single squote, .single '"', .single bquote]

/-- The items of the class `\s` (ASCII whitespace, as matched by Python on
ASCII input). -/
def wsItems : List ClsItem :=
  [.single ' ', .single '\t', .single '\n', .single '\r',
   .single (Char.ofNat 11), .single (Char.ofNat 12)]

/-- The character class `\s`. -/
def wsCls : RE := .cls false wsItems

/-- The character class `[^\s]`. -/
def notWsCls : RE := .cls true wsItems

/-- The character class `\w`. -/
def wCls : RE :=
  .cls false [.range 'a' 'z', .range 'A' 'Z', .range '0' '9', .single '_']

/-- Greedy `r*`. -/
def rStarG (r : RE) : RE := .star false r

/-- Lazy `r*?`. -/
def rStarL (r : RE) : RE := .star true r

/-- Greedy `r+`. -/
def rPlusG (r : RE) : RE := .cat r (.star false r)

/-- `\s*`. -/
def wsStar : RE := rStarG wsCls

/-- `\s+`. -/
def wsPlus : RE := rPlusG wsCls

/-- Lazy `.*?`. -/
def dotStarL : RE := .star true .dot

/-- Greedy `.*`. -/
def dotStarG : RE := .star false .dot

/-- A negated single-character class `[^c]`. -/
def notCls (c : Char) : RE := .cls true [.single c]

/-! ## The rule registry of `code_analyzer.py`

Each definition below is the translation of one pattern string of
`CodeAnalyzer.__init__`; the original string is quoted in the doc
comment. -/

/-- `(?:password|api_key|secret|token|JWT_SECRET)\s*=\s*["\'][^"\']+["\']` -/
def patHardcodedSecrets : RE :=
  rCats [rAlts [rStr "password", rStr "api_key", rStr "secret",
                rStr "token", rStr "JWT_SECRET"],
         wsStar, .lit '=', wsStar, quoteCls, rPlusG notQuoteCls, quoteCls]

/-- `(?:os\.getenv|process\.env|config\.get)\(` -/
def patHardcodedSecretsSafe : RE :=
  .cat (rAlts [rStr "os.getenv", rStr "process.env", rStr "config.get"])
       (.lit '(')

/-- The alternation `(?:SELECT|INSERT|UPDATE|DELETE)`. -/
def sqlKw : RE :=
  rAlts [rStr "SELECT", rStr "INSERT", rStr "UPDATE", rStr "DELETE"]

/-- The sql-injection pattern of `CodeAnalyzer`, an alternation of a
query-then-interpolation branch and a query-then-dollar-interpolation
branch (braces written below via `lbrace`/`rbrace`). -/
def patSqlInjection : RE :=
  .alt (rCats [sqlKw, dotStarL, qbCls, wsStar, .lit lbrace, dotStarL, .lit rbrace])
       (rCats [sqlKw, dotStarL, qbCls, dotStarL, .lit '$', .lit lbrace,
               dotStarL, .lit rbrace])

/-- `(?:parameterize|prepare|execute|cursor\.execute\([^,]+,\s*\()` -/
def patSqlInjectionSafe : RE :=
  rAlts [rStr "parameterize", rStr "prepare", rStr "execute",
         rCats [rStr "cursor.execute(", rPlusG (notCls ','), .lit ',',
                wsStar, .lit '(']]

/-- The command-injection pattern of `CodeAnalyzer`: a system-execution
call opening a quoted string containing an interpolation. -/
def patCommandInjection : RE :=
  rCats [rAlts [rStr "os.system", rStr "subprocess.run", rStr "exec", rStr "eval"],
         .lit '(', quoteCls, dotStarL,
         .alt (rCats [.lit lbrace, dotStarL, .lit rbrace])
              (rCats [.lit '$', .lit lbrace, dotStarL, .lit rbrace]),
         dotStarL, quoteCls]

/-- `(?:innerHTML|outerHTML)\s*=|dangerouslySetInnerHTML|render_template_string` -/
def patXss : RE :=
  rAlts [rCats [rAlts [rStr "innerHTML", rStr "outerHTML"], wsStar, .lit '='],
         rStr "dangerouslySetInnerHTML",
         rStr "render_template_string"]

/-- `textContent|innerText` -/
def patXssSafe : RE := rAlts [rStr "textContent", rStr "innerText"]

/-- `(?:pickle\.loads|yaml\.load|eval\(["\'])|new\s+Function\(` -/
def patInsecureDeser : RE :=
  .alt (rAlts [rStr "pickle.loads", rStr "yaml.load",
               .cat (rStr "eval(") quoteCls])
       (rCats [rStr "new", wsPlus, rStr "Function("])

/-- `(?:open|readFile|writeFile)\s*\([^)]*?(?:req\.(?:params|query|body)|user).*?\)` -/
def patPathTraversal : RE :=
  rCats [rAlts [rStr "open", rStr "readFile", rStr "writeFile"],
         wsStar, .lit '(', rStarL (notCls ')'),
         .alt (.cat (rStr "req.") (rAlts [rStr "params", rStr "query", rStr "body"]))
              (rStr "user"),
         dotStarL, .lit ')']

/-- `(?:md5|sha1)\(` -/
def patWeakCrypto : RE := .cat (rAlts [rStr "md5", rStr "sha1"]) (.lit '(')

/-- `open\([^)]+\)(?!.*?with)` -/
def patFileLeaks : RE :=
  rCats [rStr "open(", rPlusG (notCls ')'), .lit ')',
         .nlk (.cat dotStarL (rStr "with"))]

/-- `(?:append|extend|add)\([^)]*\)(?!.*?limit|.*?max)` -/
def patMemoryLeaks : RE :=
  rCats [rAlts [rStr "append", rStr "extend", rStr "add"],
         .lit '(', rStarG (notCls ')'), .lit ')',
         .nlk (.alt (.cat dotStarL (rStr "limit")) (.cat dotStarL (rStr "max")))]

/-- The react hook-rules pattern: a control keyword then `use[A-Z]`,
optionally through an opening brace. -/
def patHookRules : RE :=
  .alt (rCats [rAlts [rStr "if", rStr "for", rStr "while"], dotStarL,
               rStr "use", .cls false [.range 'A' 'Z']])
       (rCats [rAlts [rStr "if", rStr "for", rStr "while"], dotStarL,
               .lit lbrace, dotStarL, rStr "use", .cls false [.range 'A' 'Z']])

/-- `useEffect\([^,]+,\s*\[\s*\]\s*\)|useEffect\([^,]+,[^]]+\].*?(?!props|state)` -/
def patEffectDeps : RE :=
  .alt (rCats [rStr "useEffect(", rPlusG (notCls ','), .lit ',', wsStar,
               .lit '[', wsStar, .lit ']', wsStar, .lit ')'])
       (rCats [rStr "useEffect(", rPlusG (notCls ','), .lit ',',
               rPlusG (notCls ']'), .lit ']', dotStarL,
               .nlk (rAlts [rStr "props", rStr "state"])])

/-- The react effect-missing-cleanup pattern: `useEffect(` then a braced
body containing `addEventListener` or `subscribe`. -/
def patReactMemoryLeak : RE :=
  rCats [rStr "useEffect(", rStarG (notCls lbrace), .lit lbrace,
         rStarG (notCls rbrace),
         rAlts [rStr "addEventListener", rStr "subscribe"],
         rStarG (notCls rbrace), .lit rbrace, rStarG (notCls ','), .lit ')']

/-- The react unsafe-html pattern: `dangerouslySetInnerHTML`, `=`, then an
opening brace. -/
def patUnsafeHtml : RE :=
  rCats [rStr "dangerouslySetInnerHTML", wsStar, .lit '=', wsStar, .lit lbrace]

/-- `set\w+\([^(]*\w+\s*[+\-*/]\s*\w+\)` -/
def patStateUpdate : RE :=
  rCats [rStr "set", rPlusG wCls, .lit '(', rStarG (notCls '('), rPlusG wCls,
         wsStar, .cls false [.single '+', .single '-', .single '*', .single '/'],
         wsStar, rPlusG wCls, .lit ')']

/-- The express error-handling pattern: `catch (...)` then an opening
brace then `console.` or `res.`. -/
def patErrorHandling : RE :=
  .alt (rCats [rStr "catch", wsStar, .lit '(', rStarG (notCls ')'), .lit ')',
               wsStar, .lit lbrace, wsStar, rStr "console."])
       (rCats [rStr "catch", wsStar, .lit '(', rStarG (notCls ')'), .lit ')',
               wsStar, .lit lbrace, wsStar, rStr "res."])

/-- `req\.(?:body|params|query)\.[^\s]+(?!.*validate)` -/
def patNoValidation : RE :=
  rCats [rStr "req.", rAlts [rStr "body", rStr "params", rStr "query"],
         .lit '.', rPlusG notWsCls, .nlk (.cat dotStarG (rStr "validate"))]

/-- The express sync-code pattern: `app.<verb>(` then an argument, then a
`function (...)` whose braced body contains `await`. -/
def patSyncCode : RE :=
  rCats [rStr "app.", rAlts [rStr "get", rStr "post", rStr "put", rStr "delete"],
         .lit '(', rPlusG (notCls ','), .lit ',', wsStar, rStr "function",
         wsStar, .lit '(', rStarG (notCls ')'), .lit ')', wsStar, .lit lbrace,
         rStarG (notCls rbrace), rStr "await"]

/-- `(?:import.*?react|from\s+["\']react["\'])` -/
def sigReact : RE :=
  .alt (rCats [rStr "import", dotStarL, rStr "react"])
       (rCats [rStr "from", wsPlus, quoteCls, rStr "react", quoteCls])

/-- `(?:import.*?express|require\(["\']express["\'])` -/
def sigExpress : RE :=
  .alt (rCats [rStr "import", dotStarL, rStr "express"])
       (rCats [rStr "require(", quoteCls, rStr "express", quoteCls])

/-- `(?:from\s+django|import\s+django)` -/
def sigDjango : RE :=
  .alt (rCats [rStr "from", wsPlus, rStr "django"])
       (rCats [rStr "import", wsPlus, rStr "django"])

/-- `(?:from\s+flask\s+import|import\s+flask)` -/
def sigFlask : RE :=
  .alt (rCats [rStr "from", wsPlus, rStr "flask", wsPlus, rStr "import"])
       (rCats [rStr "import", wsPlus, rStr "flask"])

/-! ## `CodeAnalyzer` -/

/-- One entry of a pattern dict of `CodeAnalyzer.__init__`.  The resource
and framework dicts carry no `safe_pattern` key (`dict.get` then yields
`None`), modelled by the default `none`. -/
structure Rule where
  pattern : RE
  safe_pattern : Option RE := none
  severity : String
  description : String
  fix : String

/-- The state of a `CodeAnalyzer` instance: the three pattern tables set
by `__init__`, as insertion-ordered association lists (Python dicts
preserve insertion order). -/
structure CodeAnalyzer where
  security_patterns : List (String × Rule)
  resource_patterns : List (String × Rule)
  framework_patterns : List (String × List (String × Rule))

/-- `CodeAnalyzer.__init__`: the rule registry, verbatim from the
source. -/
def CodeAnalyzer.init : CodeAnalyzer where
  security_patterns :=
    [("hardcoded_secrets",
      { pattern := patHardcodedSecrets, safe_pattern := some patHardcodedSecretsSafe,
        severity := "Critical", description := "Hardcoded credentials in code",
        fix := "Use environment variables or secure vault" }),
     ("sql_injection",
      { pattern := patSqlInjection, safe_pattern := some patSqlInjectionSafe,
        severity := "Critical", description := "SQL injection vulnerability",
        fix := "Use parameterized queries" }),
     ("command_injection",
      { pattern := patCommandInjection, safe_pattern := none,
        severity := "Critical", description := "Command injection vulnerability",
        fix := "Use subprocess.run with args list" }),
     ("xss",
      { pattern := patXss, safe_pattern := some patXssSafe,
        severity := "Critical", description := "Cross-site scripting vulnerability",
        fix := "Use safe content handling methods" }),
     ("insecure_deserialization",
      { pattern := patInsecureDeser, safe_pattern := none,
        severity := "Critical", description := "Insecure deserialization",
        fix := "Use safe deserialization methods" }),
     ("path_traversal",
      { pattern := patPathTraversal, safe_pattern := none,
        severity := "Critical", description := "Path traversal vulnerability",
        fix := "Validate and sanitize file paths" }),
     ("weak_crypto",
      { pattern := patWeakCrypto, safe_pattern := none,
        severity := "Critical", description := "Weak cryptographic algorithm",
        fix := "Use strong cryptographic algorithms" })]
  resource_patterns :=
    [("file_leaks",
      { pattern := patFileLeaks, severity := "High",
        description := "File resource leak", fix := "Use with statement" }),
     ("memory_leaks",
      { pattern := patMemoryLeaks, severity := "High",
        description := "Unbounded collection growth", fix := "Add size limit" })]
  framework_patterns :=
    [("react",
      [("hook_rules",
        { pattern := patHookRules, severity := "Critical",
          description := "Hook rules violation",
          fix := "Move hook to component top level" }),
       ("effect_deps",
        { pattern := patEffectDeps, severity := "High",
          description := "Missing effect dependencies",
          fix := "Add required dependencies" }),
       ("memory_leak",
        { pattern := patReactMemoryLeak, severity := "High",
          description := "Effect missing cleanup",
          fix := "Return cleanup function from effect" }),
       ("unsafe_html",
        { pattern := patUnsafeHtml, severity := "Critical",
          description := "Unsafe HTML injection",
          fix := "Use safe content rendering methods" }),
       ("state_update",
        { pattern := patStateUpdate, severity := "Medium",
          description := "State update using stale value",
          fix := "Use functional update form" })]),
     ("express",
      [("error_handling",
        { pattern := patErrorHandling, severity := "High",
          description := "Error only logged, not handled",
          fix := "Properly handle or propagate error" }),
       ("no_validation",
        { pattern := patNoValidation, severity := "High",
          description := "Missing input validation",
          fix := "Add input validation" }),
       ("sync_code",
        { pattern := patSyncCode, severity := "High",
          description := "Sync function with async code",
          fix := "Add async keyword to function" })])]

/-- A finding appended to `issues` by `CodeAnalyzer.analyze_file`: the
dict literal of the source, whose keys are fixed, as a record. -/
structure Finding where
  type : String
  severity : String
  description : String
  line : Nat
  proof : String
  fix : String
  confidence : ℚ
deriving DecidableEq, Repr

/-- The dict `CodeAnalyzer.analyze_file` passes to
`_calculate_confidence`. -/
structure IssueCtx where
  type : String
  severity : String
  proof : String
  file : String

/-- Python's `str.lower()` (ASCII case mapping; the repository's paths are
ASCII). -/
def strLower (s : String) : String := ⟨s.data.map Char.toLower⟩

/-- Python's `needle in hay` on strings. -/
def strContains (hay needle : String) : Bool := decide (needle.data <:+: hay.data)

/-- The `safe_patterns` dict local to `CodeAnalyzer._has_safe_pattern`:
for each rule type, the narrow safe sub-patterns searched in the matched
proof text (`os\.getenv`, `process\.env`, `config\.get`;
`parameterize\(`, `cursor\.execute\([^,]+,\s*\(`). -/
def hasSafePatternTable : List (String × List RE) :=
  [("hardcoded_secrets",
    [rStr "os.getenv", rStr "process.env", rStr "config.get"]),
   ("sql_injection",
    [rStr "parameterize(",
     rCats [rStr "cursor.execute(", rPlusG (notCls ','), .lit ',', wsStar, .lit '(']])]

/-- `CodeAnalyzer._has_safe_pattern`: look the issue's type up in the
table (defaulting to the empty list) and search each sub-pattern in the
issue's proof text. -/
def CodeAnalyzer.has_safe_pattern (issue : IssueCtx) : Bool :=
  let patterns :=
    (((hasSafePatternTable.find? (fun p => p.1 = issue.type)).map Prod.snd).getD [])
  patterns.any (fun p => reSearch p issue.proof.data)

/-- `CodeAnalyzer._calculate_confidence`: start from 1.0, multiply by the
severity-indexed base (default 0.5), halve for paths containing "test"
(case-insensitively), and multiply by 0.3 when `_has_safe_pattern`
holds. -/
def CodeAnalyzer.calculate_confidence (issue : IssueCtx) : ℚ :=
  let confidence : ℚ := 1.0
  let base : ℚ :=
    ((([("Critical", (0.95 : ℚ)), ("High", 0.85), ("Medium", 0.75),
        ("Low", 0.65)].find? (fun p => p.1 = issue.severity)).map Prod.snd).getD 0.5)
  let confidence := confidence * base
  let confidence :=
    if strContains (strLower issue.file) "test" then confidence * 0.5 else confidence
  let confidence :=
    if CodeAnalyzer.has_safe_pattern issue then confidence * 0.3 else confidence
  confidence

/-- The `frameworks` dict local to `CodeAnalyzer._detect_framework`, in
insertion order. -/
def frameworkSigs : List (String × RE) :=
  [("react", sigReact), ("express", sigExpress),
   ("django", sigDjango), ("flask", sigFlask)]

/-- `CodeAnalyzer._detect_framework`: return the first framework whose
signature pattern is found in the content, else `None`. -/
def CodeAnalyzer.detect_framework (content : List Char) : Option String :=
  (frameworkSigs.find? (fun p => reSearch p.2 content)).map Prod.fst

/-- The finding dict appended by the loops of
`CodeAnalyzer.analyze_file` for the match `m` (a `(start, length)` pair)
of rule `(name, rule)`: the line is the count of newlines in the content
before the match start, plus one; the proof is `match.group(0)`. -/
def mkIssue (file_path name : String) (rule : Rule) (content : List Char)
    (m : Nat × Nat) : Finding :=
  { type := name
    severity := rule.severity
    description := rule.description
    line := (content.take m.1).count '\n' + 1
    proof := String.mk ((content.drop m.1).take m.2)
    fix := rule.fix
    confidence := CodeAnalyzer.calculate_confidence
      { type := name, severity := rule.severity,
        proof := String.mk ((content.drop m.1).take m.2), file := file_path } }

/-- The security loop of `analyze_file`: for each security rule, every
match of its pattern, skipped entirely when the rule has a safe pattern
that occurs anywhere in the content. -/
def securityIssues (a : CodeAnalyzer) (file_path : String)
    (content : List Char) : List Finding :=
  a.security_patterns.flatMap (fun nr =>
    (finditer nr.2.pattern content).filterMap (fun m =>
      match nr.2.safe_pattern with
      | some sp =>
        if reSearch sp content then none
        else some (mkIssue file_path nr.1 nr.2 content m)
      | none => some (mkIssue file_path nr.1 nr.2 content m)))

/-- The resource loop of `analyze_file`: every match of every resource
rule (no safe-pattern check in this loop). -/
def resourceIssues (a : CodeAnalyzer) (file_path : String)
    (content : List Char) : List Finding :=
  a.resource_patterns.flatMap (fun nr =>
    (finditer nr.2.pattern content).map (mkIssue file_path nr.1 nr.2 content))

/-- The framework loop of `analyze_file`: runs only when a framework was
detected and is a key of `framework_patterns`. -/
def frameworkIssues (a : CodeAnalyzer) (file_path : String)
    (content : List Char) (framework : Option String) : List Finding :=
  match framework with
  | none => []
  | some fw =>
    match a.framework_patterns.find? (fun p => p.1 = fw) with
    | none => []
    | some entry =>
      entry.2.flatMap (fun nr =>
        (finditer nr.2.pattern content).map (mkIssue file_path nr.1 nr.2 content))

/-- The severity-rank dict of the sort key of `analyze_file`
(`{'Critical': 0, 'High': 1, 'Medium': 2, 'Low': 3}.get(severity, 4)`). -/
def severityRank (s : String) : Nat :=
  ((([("Critical", 0), ("High", 1), ("Medium", 2),
      ("Low", 3)].find? (fun p => p.1 = s)).map Prod.snd).getD 4)

/-- The comparison induced by `analyze_file`'s sort key
`(severityRank, -confidence)`: Python tuples compare lexicographically. -/
def issueLe (x y : Finding) : Prop :=
  severityRank x.severity < severityRank y.severity ∨
    (severityRank x.severity = severityRank y.severity ∧
      -x.confidence ≤ -y.confidence)

instance (x y : Finding) : Decidable (issueLe x y) := by
  unfold issueLe; exact inferInstance

/-- Python's `sorted(issues, key=...)`, a stable sort.  The output of a
stable sort is determined extensionally by the comparison (any two stable
sorts of the same list under the same total preorder agree), so Timsort is
modelled by insertion sort. -/
def sortIssues (l : List Finding) : List Finding := l.insertionSort issueLe

/-- The unsorted `issues` list accumulated by `analyze_file`: the security
loop, then the resource loop, then the framework loop. -/
def rawIssues (a : CodeAnalyzer) (file_path : String) (content : List Char) :
    List Finding :=
  securityIssues a file_path content ++ resourceIssues a file_path content ++
    frameworkIssues a file_path content (CodeAnalyzer.detect_framework content)

/-- `CodeAnalyzer.analyze_file`, with the file read performed by the
external collaborator (so the content is a parameter), returning the
findings together with the instance state after the call — the method
body contains no assignment to `self`, so the state passes through
unchanged.  (`file_type` is computed by the source from the path's
extension but never used afterwards, so it is not modelled.) -/
def CodeAnalyzer.analyze_file (a : CodeAnalyzer) (file_path content : String) :
    List Finding × CodeAnalyzer :=
  (sortIssues (rawIssues a file_path content.data), a)

/-- The finding list of a fresh `CodeAnalyzer`'s `analyze_file`, the form
every claim about the engine's output uses. -/
def analyzeFile (file_path content : String) : List Finding :=
  (CodeAnalyzer.init.analyze_file file_path content).1

/-! ## `code_analysis_patterns.py`

The issue dicts built by this module have string keys and string values
only, so a finding of this module is modelled as an association list —
which keys a dict carries is itself under verification here. -/

/-- An issue dict of `code_analysis_patterns.py`. -/
def PyDict : Type := List (String × String)

instance : DecidableEq PyDict := by unfold PyDict; exact inferInstance

/-- `dict.get`-style lookup on an issue dict. -/
def PyDict.get (d : PyDict) (k : String) : Option String :=
  (d.find? (fun p => p.1 = k)).map Prod.snd

namespace SecurityPatternChecker

/-- `credential_patterns['hardcoded_secrets']`:
`(?:password|api_key|secret|token|key)\s*=\s*["\'][^"\']+["\']` -/
def hardcoded_secrets : RE :=
  rCats [rAlts [rStr "password", rStr "api_key", rStr "secret",
                rStr "token", rStr "key"],
         wsStar, .lit '=', wsStar, quoteCls, rPlusG notQuoteCls, quoteCls]

/-- `credential_patterns['safe_patterns']`:
`(?:os\.getenv|process\.env|config\.get|secrets\.get)\(["\'][^"\']+["\']\)` -/
def safe_patterns : RE :=
  rCats [rAlts [rStr "os.getenv", rStr "process.env", rStr "config.get",
                rStr "secrets.get"],
         .lit '(', quoteCls, rPlusG notQuoteCls, quoteCls, .lit ')']

/-- `injection_patterns['sql_injection']`: an f-string opening a quote,
an interpolation, then a query keyword, then a quote. -/
def sql_injection : RE :=
  rCats [.lit 'f', quoteCls, dotStarL, .lit lbrace, dotStarL, .lit rbrace,
         dotStarL, sqlKw, dotStarL, quoteCls]

/-- `injection_patterns['command_injection']`: a system-execution call
opening a quote, an interpolation, a quote, then a closing paren. -/
def command_injection : RE :=
  rCats [rAlts [rStr "os.system", rStr "subprocess.run", rStr "subprocess.Popen"],
         .lit '(', quoteCls, dotStarL, .lit lbrace, dotStarL, .lit rbrace,
         dotStarL, quoteCls, dotStarL, .lit ')']

/-- `injection_patterns['shell_injection']`: `shell\s*=\s*True`
(declared by `__init__` but consulted by no checker method). -/
def shell_injection : RE :=
  rCats [rStr "shell", wsStar, .lit '=', wsStar, rStr "True"]

/-- `resource_patterns['file_leaks']`: `open\([^)]+\)(?!.*?with)`. -/
def file_leaks : RE := patFileLeaks

/-- `resource_patterns['infinite_loops']`: `while\s+True:(?!.*?break)`. -/
def infinite_loops : RE :=
  rCats [rStr "while", wsPlus, rStr "True:", .nlk (.cat dotStarL (rStr "break"))]

/-- `resource_patterns['memory_leaks']`, identical to the analyzer's. -/
def memory_leaks : RE := patMemoryLeaks

/-- The line-number text `f'Line {code.count(chr(10), 0, match.start()) + 1}'`. -/
def locLine (code : List Char) (start : Nat) : String :=
  "Line " ++ toString ((code.take start).count '\n' + 1)

/-- `SecurityPatternChecker.check_credentials`: one issue dict per match
of the hardcoded-secrets pattern, unconditionally. -/
def check_credentials (code : List Char) : List PyDict :=
  (finditer hardcoded_secrets code).map (fun m =>
    [("severity", "Critical"), ("category", "Security"),
     ("type", "Hardcoded secrets"), ("location", locLine code m.1),
     ("description", "Hardcoded credential found in code"),
     ("proof", String.mk ((code.drop m.1).take m.2)),
     ("fix", "Use environment variables or secure secret storage")])

/-- `SecurityPatternChecker.check_injections`: sql-injection matches then
command-injection matches. -/
def check_injections (code : List Char) : List PyDict :=
  (finditer sql_injection code).map (fun m =>
    [("severity", "Critical"), ("category", "Security"),
     ("type", "SQL Injection"), ("location", locLine code m.1),
     ("description", "Potential SQL injection through string formatting"),
     ("proof", String.mk ((code.drop m.1).take m.2)),
     ("fix", "Use parameterized queries")]) ++
  (finditer command_injection code).map (fun m =>
    [("severity", "Critical"), ("category", "Security"),
     ("type", "Command Injection"), ("location", locLine code m.1),
     ("description", "Potential command injection through string formatting"),
     ("proof", String.mk ((code.drop m.1).take m.2)),
     ("fix", "Use subprocess.run with a list of arguments")])

/-- `SecurityPatternChecker.check_resources`: file-leak matches then
infinite-loop matches (the `memory_leaks` entry is not consulted). -/
def check_resources (code : List Char) : List PyDict :=
  (finditer file_leaks code).map (fun m =>
    [("severity", "High"), ("category", "Code Quality"),
     ("type", "Resource leak"), ("location", locLine code m.1),
     ("description", "File opened without using context manager"),
     ("proof", String.mk ((code.drop m.1).take m.2)),
     ("fix", "Use \"with open(...) as f:\" pattern")]) ++
  (finditer infinite_loops code).map (fun m =>
    [("severity", "High"), ("category", "Logic"),
     ("type", "Infinite loop"), ("location", locLine code m.1),
     ("description", "Potential infinite loop without break condition"),
     ("proof", String.mk ((code.drop m.1).take m.2)),
     ("fix", "Add proper exit condition")])

end SecurityPatternChecker

/-- The shape of a CPython `ast` node as far as the two structural checks
observe it: whether it is an `ast.Attribute`, an `ast.ExceptHandler`
whose `type` field is `None`, an `ast.ExceptHandler` with a type, or any
other node kind; its `lineno`; and its child nodes in
`ast.iter_child_nodes` order. -/
inductive PyAst where
  | Attribute (lineno : Nat) (children : List PyAst)
  | ExceptHandlerBare (lineno : Nat) (children : List PyAst)
  | ExceptHandlerTyped (lineno : Nat) (children : List PyAst)
  | Other (lineno : Nat) (children : List PyAst)

/-- The children of a node. -/
def PyAst.children : PyAst → List PyAst
  | .Attribute _ cs => cs
  | .ExceptHandlerBare _ cs => cs
  | .ExceptHandlerTyped _ cs => cs
  | .Other _ cs => cs

/-- Breadth-first worklist traversal, as `ast.walk` performs with its
deque: pop the front node, yield it, push its children at the back. -/
def walkAux : Nat → List PyAst → List PyAst
  | 0, _ => []
  | _, [] => []
  | fuel + 1, n :: todo => n :: walkAux fuel (todo ++ n.children)

mutual

/-- The number of nodes of a tree. -/
def PyAst.count : PyAst → Nat
  | .Attribute _ cs => 1 + PyAst.countList cs
  | .ExceptHandlerBare _ cs => 1 + PyAst.countList cs
  | .ExceptHandlerTyped _ cs => 1 + PyAst.countList cs
  | .Other _ cs => 1 + PyAst.countList cs

/-- The number of nodes of a forest. -/
def PyAst.countList : List PyAst → Nat
  | [] => 0
  | t :: ts => PyAst.count t + PyAst.countList ts

end

/-- `ast.walk(tree)`: the root first, then breadth-first.  The node count
bounds the number of worklist steps, so the fuel is never exhausted. -/
def walk (t : PyAst) : List PyAst := walkAux (PyAst.count t) [t]

/-- `ast.parse` is CPython's parser, external to the repository: a model
of the analysis is parametrized by a parse oracle which either returns a
tree or raises (`SyntaxError` on syntactically invalid input). -/
def ParseOracle : Type := String → Except String PyAst

namespace LogicPatternChecker

/-- `LogicPatternChecker.check_null_pointers`: parse (the parse error, if
any, propagates — the source has no handler around `ast.parse`), then one
issue dict per `ast.Attribute` node of the walk.  The dict literal has no
`confidence` and no `proof` key. -/
def check_null_pointers (ast_parse : ParseOracle) (code : String) :
    Except String (List PyDict) := do
  let tree ← ast_parse code
  pure ((walk tree).filterMap (fun n =>
    match n with
    | .Attribute ln _ =>
      some [("severity", "High"), ("category", "Logic"),
            ("type", "Null pointer"), ("location", "Line " ++ toString ln),
            ("description", "Potential null pointer dereference"),
            ("fix", "Add null check before accessing attribute")]
    | _ => none))

/-- `LogicPatternChecker.check_error_handling`: parse (the parse error
propagates), then one issue dict per bare `ast.ExceptHandler` node.  The
dict literal has no `confidence` and no `proof` key. -/
def check_error_handling (ast_parse : ParseOracle) (code : String) :
    Except String (List PyDict) := do
  let tree ← ast_parse code
  pure ((walk tree).filterMap (fun n =>
    match n with
    | .ExceptHandlerBare ln _ =>
      some [("severity", "Medium"), ("category", "Code Quality"),
            ("type", "Broad exception handling"),
            ("location", "Line " ++ toString ln),
            ("description", "Using bare except clause"),
            ("fix", "Catch specific exceptions")]
    | _ => none))

end LogicPatternChecker

/-- `analyze_code`: the results dict, with the checkers run in the
evaluation order of the source's dict literal.  The two regex-only
checker groups cannot raise; an exception from either structural checker
propagates out of `analyze_code` itself. -/
def analyze_code (ast_parse : ParseOracle) (code : String) :
    Except String (List (String × List PyDict)) := do
  let security := SecurityPatternChecker.check_credentials code.data ++
    SecurityPatternChecker.check_injections code.data
  let resource := SecurityPatternChecker.check_resources code.data
  let logic₁ ← LogicPatternChecker.check_null_pointers ast_parse code
  let logic₂ ← LogicPatternChecker.check_error_handling ast_parse code
  pure [("security_issues", security), ("resource_issues", resource),
        ("logic_issues", logic₁ ++ logic₂)]

/-! ## Helper lemmas -/

theorem severityRank_Critical : severityRank "Critical" = 0 := rfl

theorem severityRank_High : severityRank "High" = 1 := rfl

theorem severityRank_Medium : severityRank "Medium" = 2 := rfl

theorem severityRank_Low : severityRank "Low" = 3 := rfl

/-- Every finding of the security loop comes from a rule of the table via
`mkIssue`, and only when no safe pattern of that rule occurs in the
content. -/
theorem mem_securityIssues {a : CodeAnalyzer} {fp : String} {content : List Char}
    {f : Finding} (hf : f ∈ securityIssues a fp content) :
    ∃ nr ∈ a.security_patterns,
      (∀ sp, nr.2.safe_pattern = some sp → reSearch sp content = false) ∧
        ∃ m, f = mkIssue fp nr.1 nr.2 content m := by
  unfold securityIssues at hf
  rcases List.mem_flatMap.mp hf with ⟨nr, hnr, hmem⟩
  rcases List.mem_filterMap.mp hmem with ⟨m, _, heq⟩
  refine ⟨nr, hnr, ?_, m, ?_⟩
  · intro sp hsp
    rw [hsp] at heq
    by_cases hs : reSearch sp content
    · simp [hs] at heq
    · simpa using hs
  · cases hsp : nr.2.safe_pattern with
    | none => rw [hsp] at heq; simpa using heq.symm
    | some sp =>
      rw [hsp] at heq
      by_cases hs : reSearch sp content
      · simp [hs] at heq
      · simp only [hs, if_neg, Bool.false_eq_true, ite_false, Option.some.injEq] at heq
        exact heq.symm

/-- Every finding of the resource loop comes from a rule of the table via
`mkIssue`. -/
theorem mem_resourceIssues {a : CodeAnalyzer} {fp : String} {content : List Char}
    {f : Finding} (hf : f ∈ resourceIssues a fp content) :
    ∃ nr ∈ a.resource_patterns, ∃ m, f = mkIssue fp nr.1 nr.2 content m := by
  unfold resourceIssues at hf
  rcases List.mem_flatMap.mp hf with ⟨nr, hnr, hmem⟩
  rcases List.mem_map.mp hmem with ⟨m, _, heq⟩
  exact ⟨nr, hnr, m, heq.symm⟩

/-- Every finding of the framework loop comes from a rule of one of the
framework tables via `mkIssue`. -/
theorem mem_frameworkIssues {a : CodeAnalyzer} {fp : String} {content : List Char}
    {fw : Option String} {f : Finding} (hf : f ∈ frameworkIssues a fp content fw) :
    ∃ entry ∈ a.framework_patterns, ∃ nr ∈ entry.2, ∃ m,
      f = mkIssue fp nr.1 nr.2 content m := by
  cases fw with
  | none => simp [frameworkIssues] at hf
  | some name =>
    cases hfind : a.framework_patterns.find? (fun p => p.1 = name) with
    | none => simp [frameworkIssues, hfind] at hf
    | some entry =>
      simp only [frameworkIssues, hfind] at hf
      rcases List.mem_flatMap.mp hf with ⟨nr, hnr, hmem⟩
      rcases List.mem_map.mp hmem with ⟨m, _, heq⟩
      exact ⟨entry, List.mem_of_find?_eq_some hfind, nr, hnr, m, heq.symm⟩

/-- Every finding returned by `analyze_file` is an `mkIssue` of some rule
of the registry. -/
theorem mem_analyzeFile {path content : String} {f : Finding}
    (hf : f ∈ analyzeFile path content) :
    ∃ name rule m, f = mkIssue path name rule content.data m := by
  have hraw : f ∈ rawIssues CodeAnalyzer.init path content.data := by
    have := (List.mem_insertionSort issueLe).mp hf
    simpa [rawIssues] using this
  unfold rawIssues at hraw
  rcases List.mem_append.mp hraw with h | h
  · rcases List.mem_append.mp h with h | h
    · rcases mem_securityIssues h with ⟨nr, _, _, m, heq⟩
      exact ⟨nr.1, nr.2, m, heq⟩
    · rcases mem_resourceIssues h with ⟨nr, _, m, heq⟩
      exact ⟨nr.1, nr.2, m, heq⟩
  · rcases mem_frameworkIssues h with ⟨_, _, nr, _, m, heq⟩
    exact ⟨nr.1, nr.2, m, heq⟩

/-- The confidence computed by `_calculate_confidence` always lies in
`(0, 0.95]`: each of the three factors is one of finitely many positive
constants at most one. -/
theorem calculate_confidence_bounds (issue : IssueCtx) :
    0 < CodeAnalyzer.calculate_confidence issue ∧
      CodeAnalyzer.calculate_confidence issue ≤ 0.95 := by
  unfold CodeAnalyzer.calculate_confidence
  by_cases h1 : "Critical" = issue.severity <;>
  by_cases h2 : "High" = issue.severity <;>
  by_cases h3 : "Medium" = issue.severity <;>
  by_cases h4 : "Low" = issue.severity <;>
  by_cases h5 : strContains (strLower issue.file) "test" <;>
  by_cases h6 : CodeAnalyzer.has_safe_pattern issue <;>
  simp only [List.find?, h1, h2, h3, h4, h5, h6, decide_eq_true_eq, if_true,
    if_false, Option.map_some', Option.map_none', Option.getD_some,
    Option.getD_none] <;>
  norm_num

/-- `issueLe` is transitive. -/
theorem issueLe_trans {x y z : Finding} (h1 : issueLe x y) (h2 : issueLe y z) :
    issueLe x z := by
  unfold issueLe at *
  rcases h1 with h1 | ⟨h1, h1'⟩ <;> rcases h2 with h2 | ⟨h2, h2'⟩
  · exact Or.inl (h1.trans h2)
  · exact Or.inl (h2 ▸ h1)
  · exact Or.inl (h1 ▸ h2)
  · exact Or.inr ⟨h1.trans h2, h1'.trans h2'⟩

/-- `issueLe` is total. -/
theorem issueLe_total (x y : Finding) : issueLe x y ∨ issueLe y x := by
  unfold issueLe
  rcases Nat.lt_trichotomy (severityRank x.severity) (severityRank y.severity) with
    h | h | h
  · exact Or.inl (Or.inl h)
  · rcases le_total (-x.confidence) (-y.confidence) with hq | hq
    · exact Or.inl (Or.inr ⟨h, hq⟩)
    · exact Or.inr (Or.inr ⟨h.symm, hq⟩)
  · exact Or.inr (Or.inl h)

instance : IsTrans Finding issueLe := ⟨fun _ _ _ => issueLe_trans⟩

instance : IsTotal Finding issueLe := ⟨issueLe_total⟩

/-! ## The claims -/

/-- C7.  `analyze_file` is deterministic and non-mutating: the instance
state after a call is the very state before it, and a second call on the
same analyzer and the same `(path, content)` returns the same ordered
finding sequence as the first. -/
theorem analyze_file_deterministic_and_pure (a : CodeAnalyzer)
    (path content : String) :
    (a.analyze_file path content).2 = a ∧
      ((a.analyze_file path content).2.analyze_file path content).1 =
        (a.analyze_file path content).1 :=
  ⟨rfl, rfl⟩

/-- C8.  `_detect_framework` applies its fixed signature list in the
priority order react, express, django, flask and returns the first
framework whose signature occurs in the content, or `none` when no
signature occurs. -/
theorem detect_framework_first_match (content : List Char) :
    CodeAnalyzer.detect_framework content =
      (if reSearch sigReact content then some "react"
       else if reSearch sigExpress content then some "express"
       else if reSearch sigDjango content then some "django"
       else if reSearch sigFlask content then some "flask"
       else none) := by
  unfold CodeAnalyzer.detect_framework frameworkSigs
  cases h1 : reSearch sigReact content <;>
    cases h2 : reSearch sigExpress content <;>
      cases h3 : reSearch sigDjango content <;>
        cases h4 : reSearch sigFlask content <;>
          simp [List.find?, h1, h2, h3, h4]

/-- What `analyze_file` returns when no framework is detected: the
security and resource loops only. -/
def analyzeFileNoFramework (file_path content : String) : List Finding :=
  sortIssues (securityIssues CodeAnalyzer.init file_path content.data ++
    resourceIssues CodeAnalyzer.init file_path content.data)

/-- C10.  Detecting django or flask activates no extra rules: the
framework table has keys `react` and `express` only, so `analyze_file`
returns exactly what it returns when no framework is detected. -/
theorem django_flask_activate_no_rules (path content : String)
    (h : CodeAnalyzer.detect_framework content.data = some "django" ∨
      CodeAnalyzer.detect_framework content.data = some "flask") :
    analyzeFile path content = analyzeFileNoFramework path content := by
  unfold analyzeFile CodeAnalyzer.analyze_file analyzeFileNoFramework rawIssues
  rcases h with h | h <;> rw [h] <;>
    simp [frameworkIssues, CodeAnalyzer.init, List.find?]

/-- Witness for C10 at django-detected content holding a hardcoded
secret. -/
theorem django_flask_activate_no_rules_witness :
    CodeAnalyzer.detect_framework "import django\npassword = \"pw\"".data =
      some "django" ∧
    analyzeFile "app.py" "import django\npassword = \"pw\"" =
      analyzeFileNoFramework "app.py" "import django\npassword = \"pw\"" :=
  ⟨by decide,
   django_flask_activate_no_rules "app.py" "import django\npassword = \"pw\""
     (Or.inl (by decide))⟩

/-- A parse oracle behaving as `ast.parse` does on syntactically invalid
input: CPython raises `SyntaxError`. -/
def parseFails : ParseOracle := fun _ => Except.error "SyntaxError: invalid syntax"

/-- Content holding a hardcoded-secret regex match but syntactically
invalid for `ast.parse` (the dangling `def f(:`). -/
def c2code : String := "password = \"x\"\ndef f(:"

/-- C2 counterexample: on content whose structural parse fails, the parse
error propagates out of `analyze_code` — the regex-based findings (here
one credential finding exists) are NOT returned and the call raises. -/
theorem parse_error_not_fatal_counterexample :
    analyze_code parseFails c2code = Except.error "SyntaxError: invalid syntax" ∧
      (SecurityPatternChecker.check_credentials c2code.data).length = 1 :=
  ⟨rfl, by decide⟩

/-- C2 amended.  A structural-parse failure IS fatal to `analyze_code`:
neither `check_null_pointers` nor `analyze_code` guards `ast.parse`, so
whenever the parse oracle raises, `analyze_code` propagates that very
error and returns no findings at all. -/
theorem parse_error_propagates (parse : ParseOracle) (code e : String)
    (h : parse code = Except.error e) :
    analyze_code parse code = Except.error e := by
  simp only [analyze_code, LogicPatternChecker.check_null_pointers, h]
  rfl

/-- Witness for the amended C2 at a concrete failing oracle. -/
theorem parse_error_propagates_witness :
    parseFails c2code = Except.error "SyntaxError: invalid syntax" ∧
      analyze_code parseFails c2code =
        Except.error "SyntaxError: invalid syntax" :=
  ⟨rfl, parse_error_propagates parseFails c2code "SyntaxError: invalid syntax" rfl⟩

/-- C9.  `check_credentials` reports one finding per match of the
hardcoded-secrets pattern unconditionally — even when the
`safe_patterns` regex (declared right next to it) occurs in the content,
nothing is suppressed. -/
theorem check_credentials_ignores_safe_patterns (code : String)
    (h : reSearch SecurityPatternChecker.safe_patterns code.data = true) :
    (SecurityPatternChecker.check_credentials code.data).length =
      (finditer SecurityPatternChecker.hardcoded_secrets code.data).length := by
  unfold SecurityPatternChecker.check_credentials
  simp

/-- Content with one hardcoded secret and one `os.getenv("...")`-shaped
safe call. -/
def c9code : String := "password = \"pw\"\nk = os.getenv(\"KEY\")"

/-- Witness for C9: the safe pattern occurs, yet the credential finding
is still reported (one finding, one match). -/
theorem check_credentials_ignores_safe_patterns_witness :
    reSearch SecurityPatternChecker.safe_patterns c9code.data = true ∧
      (SecurityPatternChecker.check_credentials c9code.data).length =
        (finditer SecurityPatternChecker.hardcoded_secrets c9code.data).length ∧
      (SecurityPatternChecker.check_credentials c9code.data).length = 1 :=
  ⟨by decide, check_credentials_ignores_safe_patterns c9code (by decide), by decide⟩

/-- C3.  The `line` of the finding built for a match starting at offset
`m.1` is the number of newline characters in the content before that
offset, plus one. -/
theorem finding_line_is_newline_count_plus_one
    (path name : String) (rule : Rule) (content : String) (m : Nat × Nat)
    (k : Nat) (hm : m ∈ finditer rule.pattern content.data)
    (hk : (content.data.take m.1).count '\n' = k) :
    (mkIssue path name rule content.data m).line = k + 1 := by
  unfold mkIssue
  simp [hk]

/-- The spec's own verification example for C3. -/
def c3content : String := "a\nb\npassword = \"x\"\n"

/-- The `hardcoded_secrets` rule of the registry (the head entry of
`CodeAnalyzer.init.security_patterns`). -/
def hardcodedSecretsRule : Rule :=
  { pattern := patHardcodedSecrets, safe_pattern := some patHardcodedSecretsSafe,
    severity := "Critical", description := "Hardcoded credentials in code",
    fix := "Use environment variables or secure vault" }

/-- Witness for C3: in `"a\nb\npassword = \"x\"\n"` the credential match
starts at offset 4 with two newlines before it, and the finding —
including through the full `analyze_file` pipeline — is at line 3. -/
theorem finding_line_is_newline_count_plus_one_witness :
    (4, 14) ∈ finditer hardcodedSecretsRule.pattern c3content.data ∧
      (c3content.data.take 4).count '\n' = 2 ∧
      (mkIssue "f.py" "hardcoded_secrets" hardcodedSecretsRule c3content.data (4, 14)).line =
        2 + 1 ∧
      (analyzeFile "f.py" c3content).map (fun f => f.line) = [3] :=
  ⟨by decide, by decide,
   finding_line_is_newline_count_plus_one "f.py" "hardcoded_secrets" hardcodedSecretsRule
     c3content (4, 14) 2 (by decide) (by decide),
   by decide⟩

/-- C1.  Safe-pattern suppression is file-wide: whenever a security rule
defines a safe pattern and that safe pattern occurs anywhere in the
content — before or after any primary match — `analyze_file` reports zero
findings of that rule's type on that file. -/
theorem safe_pattern_suppression_file_wide
    (path content name : String) (rule : Rule) (sp : RE)
    (hmem : (name, rule) ∈ CodeAnalyzer.init.security_patterns)
    (hsp : rule.safe_pattern = some sp)
    (hsearch : reSearch sp content.data = true) :
    ∀ f ∈ analyzeFile path content, f.type ≠ name := by
  intro f hf heq
  have hraw : f ∈ rawIssues CodeAnalyzer.init path content.data := by
    have hf' : f ∈ sortIssues (rawIssues CodeAnalyzer.init path content.data) := hf
    exact (List.mem_insertionSort issueLe).mp hf'
  rw [rawIssues] at hraw
  rcases List.mem_append.mp hraw with hra | hfw
  · rcases List.mem_append.mp hra with hsec | hres
    · rcases mem_securityIssues hsec with ⟨nr, hnr, hnosup, m, hfeq⟩
      have htype : nr.1 = name := by rw [← heq, hfeq]; rfl
      simp only [CodeAnalyzer.init, List.mem_cons, List.not_mem_nil, or_false,
        Prod.mk.injEq] at hmem hnr
      rcases hmem with ⟨hn, hr⟩ | ⟨hn, hr⟩ | ⟨hn, hr⟩ | ⟨hn, hr⟩ | ⟨hn, hr⟩ |
        ⟨hn, hr⟩ | ⟨hn, hr⟩ <;>
        subst hn <;> subst hr <;>
        rcases hnr with rfl | rfl | rfl | rfl | rfl | rfl | rfl <;>
        simp_all
    · rcases mem_resourceIssues hres with ⟨nr, hnr, m, hfeq⟩
      have htype : nr.1 = name := by rw [← heq, hfeq]; rfl
      simp only [CodeAnalyzer.init, List.mem_cons, List.not_mem_nil, or_false,
        Prod.mk.injEq] at hmem hnr
      rcases hmem with ⟨hn, hr⟩ | ⟨hn, hr⟩ | ⟨hn, hr⟩ | ⟨hn, hr⟩ | ⟨hn, hr⟩ |
        ⟨hn, hr⟩ | ⟨hn, hr⟩ <;>
        subst hn <;> subst hr <;>
        rcases hnr with rfl | rfl <;>
        simp_all
  · rcases mem_frameworkIssues hfw with ⟨entry, hentry, nr, hnr, m, hfeq⟩
    have htype : nr.1 = name := by rw [← heq, hfeq]; rfl
    simp only [CodeAnalyzer.init, List.mem_cons, List.not_mem_nil, or_false,
      Prod.mk.injEq] at hmem hentry
    rcases hmem with ⟨hn, hr⟩ | ⟨hn, hr⟩ | ⟨hn, hr⟩ | ⟨hn, hr⟩ | ⟨hn, hr⟩ |
      ⟨hn, hr⟩ | ⟨hn, hr⟩ <;>
      subst hn <;> subst hr <;>
      rcases hentry with rfl | rfl <;>
      simp only [List.mem_cons, List.not_mem_nil, or_false] at hnr <;>
      rcases hnr with rfl | rfl | rfl | rfl | rfl <;> simp_all

/-- Content with a hardcoded secret followed (later in the file) by an
`os.getenv(`-shaped safe call. -/
def c1code : String := "password = \"pw\"\ntok = os.getenv(\"K\")"

/-- Witness for C1: the primary pattern matches once, the safe pattern
occurs after it, and `analyze_file` reports zero hardcoded-secret
findings. -/
theorem safe_pattern_suppression_file_wide_witness :
    reSearch patHardcodedSecretsSafe c1code.data = true ∧
      (finditer patHardcodedSecrets c1code.data).length = 1 ∧
      ∀ f ∈ analyzeFile "app.py" c1code, f.type ≠ "hardcoded_secrets" :=
  ⟨by decide, by decide,
   safe_pattern_suppression_file_wide "app.py" c1code "hardcoded_secrets"
     hardcodedSecretsRule patHardcodedSecretsSafe (by exact List.mem_cons_self _ _) rfl
     (by decide)⟩

/-- The severity-indexed base dict of `_calculate_confidence`, computed
by nested comparison as the spec describes it. -/
theorem base_lookup_eq (sev : String) :
    ((Option.map Prod.snd (List.find? (fun p => p.1 = sev)
        [("Critical", (0.95 : ℚ)), ("High", 0.85), ("Medium", 0.75),
         ("Low", 0.65)])).getD 0.5) =
      (if sev = "Critical" then (0.95 : ℚ)
       else if sev = "High" then 0.85
       else if sev = "Medium" then 0.75
       else if sev = "Low" then 0.65 else 0.5) := by
  by_cases h1 : sev = "Critical"
  · simp [List.find?, h1]
  · by_cases h2 : sev = "High"
    · simp [List.find?, h1, h2, Ne.symm h1]
    · by_cases h3 : sev = "Medium"
      · simp [List.find?, h1, h2, h3, Ne.symm h1, Ne.symm h2]
      · by_cases h4 : sev = "Low"
        · simp [List.find?, h1, h2, h3, h4, Ne.symm h1, Ne.symm h2, Ne.symm h3]
        · simp [List.find?, h1, h2, h3, h4, Ne.symm h1, Ne.symm h2, Ne.symm h3,
            Ne.symm h4]

/-- The spec's discount condition (§4.5 step 3): the finding's type is
hardcoded-secret or SQL-injection, and the matched proof text itself
contains one of that type's narrow safe sub-patterns. -/
def specSafeDiscount (issue : IssueCtx) : Prop :=
  (issue.type = "hardcoded_secrets" ∧
    ([rStr "os.getenv", rStr "process.env", rStr "config.get"].any
      (fun p => reSearch p issue.proof.data)) = true) ∨
  (issue.type = "sql_injection" ∧
    ([rStr "parameterize(",
      rCats [rStr "cursor.execute(", rPlusG (notCls ','), .lit ',', wsStar,
        .lit '(']].any (fun p => reSearch p issue.proof.data)) = true)

instance (issue : IssueCtx) : Decidable (specSafeDiscount issue) := by
  unfold specSafeDiscount; exact inferInstance

/-- `_has_safe_pattern` holds exactly on the spec's discount condition. -/
theorem has_safe_pattern_iff (issue : IssueCtx) :
    CodeAnalyzer.has_safe_pattern issue = true ↔ specSafeDiscount issue := by
  unfold CodeAnalyzer.has_safe_pattern hasSafePatternTable specSafeDiscount
  by_cases h1 : issue.type = "hardcoded_secrets"
  · have h2 : ¬(issue.type = "sql_injection") := by rw [h1]; decide
    simp [List.find?, h1, h2]
  · by_cases h2 : issue.type = "sql_injection"
    · simp [List.find?, h1, h2, Ne.symm h1]
    · simp [List.find?, h1, h2, Ne.symm h1, Ne.symm h2]

/-- The confidence score as §4.5 of the spec words it: a severity-indexed
base, halved for test-file paths, and multiplied by 0.3 under the
discount condition. -/
def confidenceSpec (issue : IssueCtx) : ℚ :=
  (if issue.severity = "Critical" then (0.95 : ℚ)
   else if issue.severity = "High" then 0.85
   else if issue.severity = "Medium" then 0.75
   else if issue.severity = "Low" then 0.65 else 0.5) *
  (if strContains (strLower issue.file) "test" then 0.5 else 1) *
  (if specSafeDiscount issue then 0.3 else 1)

/-- C4.  `_calculate_confidence` computes exactly the spec's formula, and
its value always lies in `[0, 0.95]`. -/
theorem confidence_formula (issue : IssueCtx) :
    CodeAnalyzer.calculate_confidence issue = confidenceSpec issue ∧
      0 ≤ CodeAnalyzer.calculate_confidence issue ∧
      CodeAnalyzer.calculate_confidence issue ≤ 0.95 := by
  refine ⟨?_, le_of_lt (calculate_confidence_bounds issue).1,
    (calculate_confidence_bounds issue).2⟩
  unfold CodeAnalyzer.calculate_confidence confidenceSpec
  rw [base_lookup_eq]
  by_cases h5 : strContains (strLower issue.file) "test" <;>
    by_cases h6 : specSafeDiscount issue
  · have hb : CodeAnalyzer.has_safe_pattern issue = true :=
      (has_safe_pattern_iff issue).mpr h6
    simp [h5, h6, hb]; ring_nf
  · have hb : CodeAnalyzer.has_safe_pattern issue = false :=
      Bool.eq_false_iff.mpr (fun hh => h6 ((has_safe_pattern_iff issue).mp hh))
    simp [h5, h6, hb]; ring_nf
  · have hb : CodeAnalyzer.has_safe_pattern issue = true :=
      (has_safe_pattern_iff issue).mpr h6
    simp [h5, h6, hb]; ring_nf
  · have hb : CodeAnalyzer.has_safe_pattern issue = false :=
      Bool.eq_false_iff.mpr (fun hh => h6 ((has_safe_pattern_iff issue).mp hh))
    simp [h5, h6, hb]; ring_nf

/-- C6 (amended).  Every finding `analyze_file` returns carries a
confidence in `[0, 1]`; the structural checker's finding dicts, by
contrast, carry no `confidence` key at all (they are never scored). -/
theorem analyzer_findings_scored_structural_not :
    (∀ (path content : String) (i : Nat) (h : i < (analyzeFile path content).length),
        0 ≤ ((analyzeFile path content).get ⟨i, h⟩).confidence ∧
          ((analyzeFile path content).get ⟨i, h⟩).confidence ≤ 1) ∧
      (∀ (parse : ParseOracle) (code : String) (l : List PyDict),
          LogicPatternChecker.check_null_pointers parse code = Except.ok l →
            ∀ d ∈ l, PyDict.get d "confidence" = none) ∧
      (∀ (parse : ParseOracle) (code : String) (l : List PyDict),
          LogicPatternChecker.check_error_handling parse code = Except.ok l →
            ∀ d ∈ l, PyDict.get d "confidence" = none) := by
  refine ⟨?_, ?_, ?_⟩
  · intro path content i h
    have hf := List.get_mem (analyzeFile path content) i h
    rcases mem_analyzeFile hf with ⟨name, rule, m, heq⟩
    rw [heq]
    have hb := calculate_confidence_bounds
      { type := name, severity := rule.severity,
        proof := String.mk ((content.data.drop m.1).take m.2), file := path }
    exact ⟨le_of_lt hb.1, hb.2.trans (by norm_num)⟩
  · intro parse code l hok d hd
    unfold LogicPatternChecker.check_null_pointers at hok
    cases hparse : parse code with
    | error e => rw [hparse] at hok; exact Except.noConfusion hok
    | ok tree =>
      rw [hparse] at hok
      injection hok with hok2
      rw [← hok2] at hd
      rcases List.mem_filterMap.mp hd with ⟨n, _, hsome⟩
      cases n <;> simp only [Option.some.injEq, reduceCtorEq] at hsome
      rw [← hsome]; rfl
  · intro parse code l hok d hd
    unfold LogicPatternChecker.check_error_handling at hok
    cases hparse : parse code with
    | error e => rw [hparse] at hok; exact Except.noConfusion hok
    | ok tree =>
      rw [hparse] at hok
      injection hok with hok2
      rw [← hok2] at hd
      rcases List.mem_filterMap.mp hd with ⟨n, _, hsome⟩
      cases n <;> simp only [Option.some.injEq, reduceCtorEq] at hsome
      rw [← hsome]; rfl

/-- The parse oracle for the structural-checker examples: the tree CPython
produces for `"x.y"` (Module → Expr → Attribute → Name), the Attribute at
line 1. -/
def parseStub : ParseOracle :=
  fun _ => Except.ok (.Other 1 [.Other 1 [.Attribute 1 [.Other 1 []]]])

/-- The issue dict `check_null_pointers` emits for that Attribute node. -/
def attrDict : PyDict :=
  [("severity", "High"), ("category", "Logic"), ("type", "Null pointer"),
   ("location", "Line 1"),
   ("description", "Potential null pointer dereference"),
   ("fix", "Add null check before accessing attribute")]

/-- C6 counterexample: the analysis of `"x.y"` produces a structural
finding that carries no confidence value at all, refuting the claim that
every finding is scored with a confidence in `[0,1]`. -/
theorem structural_finding_has_no_confidence_counterexample :
    analyze_code parseStub "x.y" =
      Except.ok [("security_issues", []), ("resource_issues", []),
        ("logic_issues", [attrDict])] ∧
      PyDict.get attrDict "confidence" = none :=
  ⟨rfl, rfl⟩

/-- Witness for the amended C6, at a single-finding file for the analyzer
part and at the `"x.y"` stub for the structural part. -/
theorem analyzer_findings_scored_structural_not_witness :
    0 < (analyzeFile "app.py" "password = \"x\"").length ∧
      (0 ≤ ((analyzeFile "app.py" "password = \"x\"").get ⟨0, by decide⟩).confidence ∧
        ((analyzeFile "app.py" "password = \"x\"").get ⟨0, by decide⟩).confidence ≤ 1) ∧
      LogicPatternChecker.check_null_pointers parseStub "x.y" =
        Except.ok [attrDict] ∧
      PyDict.get attrDict "confidence" = none :=
  ⟨by decide,
   analyzer_findings_scored_structural_not.1 "app.py" "password = \"x\"" 0 (by decide),
   rfl,
   analyzer_findings_scored_structural_not.2.1 parseStub "x.y" [attrDict] rfl
     attrDict (List.mem_cons_self _ _)⟩

/-- The Medium/0.5 finding of the spec's sorting example. -/
def c5Medium : Finding :=
  { type := "medium-example", severity := "Medium", description := "",
    line := 1, proof := "", fix := "", confidence := 0.5 }

/-- The first Critical/0.9 finding of the spec's sorting example. -/
def c5Critical1 : Finding :=
  { type := "critical-example-1", severity := "Critical", description := "",
    line := 1, proof := "", fix := "", confidence := 0.9 }

/-- The High/0.5 finding of the spec's sorting example. -/
def c5High : Finding :=
  { type := "high-example", severity := "High", description := "",
    line := 1, proof := "", fix := "", confidence := 0.5 }

/-- The second Critical/0.95 finding of the spec's sorting example. -/
def c5Critical2 : Finding :=
  { type := "critical-example-2", severity := "Critical", description := "",
    line := 1, proof := "", fix := "", confidence := 0.95 }

/-- C5.  `analyze_file`'s output is a permutation of the discovered
findings, sorted by ascending severity rank then descending confidence;
the sort is stable (per severity-rank/confidence key, the discovery order
is preserved); and the spec's four-finding example comes out in the
stated order. -/
theorem findings_sorted_stably :
    (∀ (path content : String),
      (analyzeFile path content).Perm
          (rawIssues CodeAnalyzer.init path content.data) ∧
        (analyzeFile path content).Pairwise issueLe ∧
        ∀ (r : Nat) (q : ℚ),
          (analyzeFile path content).filter
              (fun f => decide (severityRank f.severity = r) &&
                decide (f.confidence = q)) =
            (rawIssues CodeAnalyzer.init path content.data).filter
              (fun f => decide (severityRank f.severity = r) &&
                decide (f.confidence = q))) ∧
      sortIssues [c5Medium, c5Critical1, c5High, c5Critical2] =
        [c5Critical2, c5Critical1, c5High, c5Medium] := by
  constructor
  · intro path content
    have hperm : (analyzeFile path content).Perm
        (rawIssues CodeAnalyzer.init path content.data) :=
      List.perm_insertionSort issueLe _
    refine ⟨hperm, List.sorted_insertionSort issueLe _, ?_⟩
    intro r q
    set p : Finding → Bool := fun f =>
      decide (severityRank f.severity = r) && decide (f.confidence = q) with hp
    have hpair : ((rawIssues CodeAnalyzer.init path content.data).filter p).Pairwise
        issueLe := by
      apply List.pairwise_of_forall_mem_list
      intro x hx y hy
      have hxp := (List.mem_filter.mp hx).2
      have hyp := (List.mem_filter.mp hy).2
      rw [hp] at hxp hyp
      simp only [Bool.and_eq_true, decide_eq_true_eq] at hxp hyp
      right
      constructor
      · rw [hxp.1, hyp.1]
      · rw [hxp.2, hyp.2]
    have hsub : List.Sublist
        ((rawIssues CodeAnalyzer.init path content.data).filter p)
        (analyzeFile path content) :=
      List.sublist_insertionSort hpair (List.filter_sublist _)
    have hidem : ((rawIssues CodeAnalyzer.init path content.data).filter p).filter p
        = (rawIssues CodeAnalyzer.init path content.data).filter p :=
      List.filter_eq_self.mpr (fun a ha => (List.mem_filter.mp ha).2)
    have hsub2 : List.Sublist
        ((rawIssues CodeAnalyzer.init path content.data).filter p)
        ((analyzeFile path content).filter p) :=
      hidem ▸ List.Sublist.filter p hsub
    have hlen : ((rawIssues CodeAnalyzer.init path content.data).filter p).length
        = ((analyzeFile path content).filter p).length :=
      (hperm.filter p).length_eq.symm
    exact (hsub2.eq_of_length hlen).symm
  · simp only [sortIssues, List.insertionSort, List.orderedInsert,
      c5Medium, c5Critical1, c5High, c5Critical2]
    norm_num [issueLe, severityRank_Critical, severityRank_High,
      severityRank_Medium]

end RepoAnalysis
